import Mathlib

/-!
Verification of the FlaxEngine content-import pipeline sources:
`Source/Engine/Tools/ModelTool/ModelTool.h` and
`Source/Engine/ContentImporters/ImportShader.cpp`.

The C++ code is shallowly embedded: machine integers become `Int`/`Nat`,
`Array<T>` becomes `List`, fallible steps return `Option`, and the
(external) `Transform` value type together with its `Identity` element and
`LocalToWorld` composition is kept abstract via a structure of operations,
because `ModelTool::CombineTransformsFromNodeIndices` is a template that
only ever forwards those two operations.
-/

namespace Flax

/-- Scene node, from `ImportedModelData::Node` (ModelTool.h, lines 70-86):
`ParentIndex` (int32, -1 means root), `LocalTransform`, `Name`.
The transform type is a parameter, matching the template parameter `Node`
of `CombineTransformsFromNodeIndices`. -/
structure Node (T : Type) where
  ParentIndex : Int
  LocalTransform : T
  Name : String

/-- The operations of the external `Transform` value type that
`CombineTransformsFromNodeIndices` uses: `Transform::Identity` and
`Transform::LocalToWorld` (parent applied to child). -/
structure TransformOps (T : Type) where
  identity : T
  localToWorld : T → T → T

/-- Embedding of `ModelTool::CombineTransformsFromNodeIndices`
(ModelTool.h, lines 399-413), with explicit recursion fuel: the C++
recursion has no cycle guard, so the embedding returns `none` when the
fuel runs out (the C++ code would still be recursing at that depth) or
when `nodes[index]` is accessed out of bounds. -/
def CombineTransformsFromNodeIndices {T : Type} (ops : TransformOps T)
    (nodes : List (Node T)) (rootIndex : Int) : Int → Nat → Option T
  | _, 0 => none
  | index, Nat.succ fuel =>
    if index = -1 ∨ index = rootIndex then
      some ops.identity
    else if h : 0 ≤ index ∧ index.toNat < nodes.length then
      let node := nodes.get ⟨index.toNat, h.2⟩
      let result := node.LocalTransform
      if index ≠ rootIndex then
        match CombineTransformsFromNodeIndices ops nodes rootIndex node.ParentIndex fuel with
        | none => none
        | some parentTransform => some (ops.localToWorld parentTransform result)
      else
        some result
    else
      none

/-- Variant of `CombineTransformsFromNodeIndices` with the inner
`if (index != rootIndex)` test removed: the parent composition branch is
taken unconditionally. -/
def CombineTransformsFromNodeIndicesNoInnerTest {T : Type} (ops : TransformOps T)
    (nodes : List (Node T)) (rootIndex : Int) : Int → Nat → Option T
  | _, 0 => none
  | index, Nat.succ fuel =>
    if index = -1 ∨ index = rootIndex then
      some ops.identity
    else if h : 0 ≤ index ∧ index.toNat < nodes.length then
      let node := nodes.get ⟨index.toNat, h.2⟩
      let result := node.LocalTransform
      match CombineTransformsFromNodeIndicesNoInnerTest ops nodes rootIndex node.ParentIndex fuel with
      | none => none
      | some parentTransform => some (ops.localToWorld parentTransform result)
    else
      none

/-- The parent chain from `index` up to the root terminates: `chain` lists
the `LocalTransform` of every ancestor from the root (exclusive) down to
`index` itself, each exactly once. The base cases are the ones of the C++
code: `index = -1` or `index = rootIndex`. -/
inductive ReachesRoot {T : Type} (nodes : List (Node T)) (rootIndex : Int) :
    Int → List T → Prop
  | base_neg : ReachesRoot nodes rootIndex (-1) []
  | base_root : ReachesRoot nodes rootIndex rootIndex []
  | step (index : Int) (h : 0 ≤ index ∧ index.toNat < nodes.length)
      (rest : List T) (hneg : index ≠ -1) (hroot : index ≠ rootIndex)
      (hparent : ReachesRoot nodes rootIndex (nodes.get ⟨index.toNat, h.2⟩).ParentIndex rest) :
      ReachesRoot nodes rootIndex index (rest ++ [(nodes.get ⟨index.toNat, h.2⟩).LocalTransform])

/-- Two-node parent cycle: node 0 has parent 1, node 1 has parent 0;
neither node is the root (`rootIndex` is taken as 2, not in the cycle). -/
def cycleNodes {T : Type} (ops : TransformOps T) : List (Node T) :=
  [⟨1, ops.identity, "a"⟩, ⟨0, ops.identity, "b"⟩]

lemma CombineTransforms_cycleNodes_none {T : Type} (ops : TransformOps T) :
    ∀ fuel : Nat,
      CombineTransformsFromNodeIndices ops (cycleNodes ops) 2 0 fuel = none ∧
      CombineTransformsFromNodeIndices ops (cycleNodes ops) 2 1 fuel = none := by
  intro fuel
  induction fuel with
  | zero => exact ⟨rfl, rfl⟩
  | succ f ih =>
    obtain ⟨ih1, ih2⟩ := ih
    simp only [cycleNodes] at ih1 ih2
    constructor
    · simp [CombineTransformsFromNodeIndices, cycleNodes, ih2]
    · simp [CombineTransformsFromNodeIndices, cycleNodes, ih1]

/-- Claim C1: the claim states that on a parent-index cycle the transform
resolution terminates and reports a fatal import error before any
recursion. The code has no cycle guard at all: on the two-node cycle it
recurses unboundedly, which the fuel embedding renders as returning `none`
at every fuel bound, for every transform type. -/
theorem CombineTransforms_cycle_never_terminates {T : Type} (ops : TransformOps T)
    (fuel : Nat) :
    CombineTransformsFromNodeIndices ops (cycleNodes ops) 2 0 fuel = none :=
  (CombineTransforms_cycleNodes_none ops fuel).1

/-- Claim C2: on an acyclic parent chain that terminates at the root (or
at -1), `CombineTransformsFromNodeIndices` returns the identity for the
base cases and otherwise the fold of `LocalToWorld` over the local
transforms of the ancestors from the root (exclusive) down to the target,
each applied exactly once. -/
theorem CombineTransformsFromNodeIndices_correct {T : Type} (ops : TransformOps T)
    (nodes : List (Node T)) (rootIndex index : Int) (chain : List T)
    (hchain : ReachesRoot nodes rootIndex index chain)
    (fuel : Nat) (hfuel : chain.length < fuel) :
    CombineTransformsFromNodeIndices ops nodes rootIndex index fuel
      = some (chain.foldl ops.localToWorld ops.identity) := by
  induction hchain generalizing fuel with
  | base_neg =>
    obtain ⟨f, rfl⟩ : ∃ f, fuel = f + 1 := ⟨fuel - 1, by omega⟩
    simp [CombineTransformsFromNodeIndices]
  | base_root =>
    obtain ⟨f, rfl⟩ : ∃ f, fuel = f + 1 := ⟨fuel - 1, by omega⟩
    simp [CombineTransformsFromNodeIndices]
  | step index h rest hneg hroot hparent ih =>
    obtain ⟨f, rfl⟩ : ∃ f, fuel = f + 1 := ⟨fuel - 1, by omega⟩
    have hrest : rest.length < f := by
      simp at hfuel; omega
    have hrec := ih f hrest
    simp only [List.get_eq_getElem] at hrec
    simp [CombineTransformsFromNodeIndices, hneg, hroot, h, hrec, List.foldl_append]

/-- Concrete transform operations for the worked example: integers with
identity 0 and composition p, c to 2 * p + c (non-commutative, so order
of application is visible). -/
def chainOps : TransformOps Int :=
  ⟨0, fun p c => 2 * p + c⟩

/-- Three nodes forming the chain root 0 <- 1 <- 2. -/
def chainNodes : List (Node Int) :=
  [⟨-1, 5, "root"⟩, ⟨0, 7, "a"⟩, ⟨1, 11, "b"⟩]

/-- Witness for claim C2 at the concrete three-node chain. -/
theorem CombineTransformsFromNodeIndices_correct_witness :
    CombineTransformsFromNodeIndices chainOps chainNodes 0 2 3 = some 25 := by
  have h1 : (0 : Int) ≤ 1 ∧ (1 : Int).toNat < chainNodes.length := by decide
  have h2 : (0 : Int) ≤ 2 ∧ (2 : Int).toNat < chainNodes.length := by decide
  have hc1 : ReachesRoot chainNodes 0 1 [7] :=
    ReachesRoot.step 1 h1 [] (by decide) (by decide) ReachesRoot.base_root
  have hc2 : ReachesRoot chainNodes 0 2 [7, 11] :=
    ReachesRoot.step 2 h2 [7] (by decide) (by decide) hc1
  exact (CombineTransformsFromNodeIndices_correct chainOps chainNodes 0 2 [7, 11]
    hc2 3 (by decide)).trans (by decide)

/-- Claim C10: the inner `if (index != rootIndex)` test is redundant; the
function is extensionally equal (at every fuel, hence on every input on
which it terminates) to the variant with the test removed. -/
theorem CombineTransforms_innerTest_redundant {T : Type} (ops : TransformOps T)
    (nodes : List (Node T)) (rootIndex : Int) (index : Int) (fuel : Nat) :
    CombineTransformsFromNodeIndices ops nodes rootIndex index fuel =
      CombineTransformsFromNodeIndicesNoInnerTest ops nodes rootIndex index fuel := by
  induction fuel generalizing index with
  | zero => rfl
  | succ f ih =>
    by_cases hbase : index = -1 ∨ index = rootIndex
    · simp [CombineTransformsFromNodeIndices,
        CombineTransformsFromNodeIndicesNoInnerTest, hbase]
    · have hroot : index ≠ rootIndex := fun hc => hbase (Or.inr hc)
      by_cases hb : 0 ≤ index ∧ index.toNat < nodes.length
      · simp [CombineTransformsFromNodeIndices,
          CombineTransformsFromNodeIndicesNoInnerTest, hbase, hb, hroot, ih]
      · simp [CombineTransformsFromNodeIndices,
          CombineTransformsFromNodeIndicesNoInnerTest, hbase, hb]

/-- `ModelTool::ModelType` (ModelTool.h, lines 195-203). -/
inductive ModelType : Type where
  | Model
  | SkinnedModel
  | Animation
deriving DecidableEq

/-- `ModelTool::AnimationDuration` (ModelTool.h, lines 208-214). -/
inductive AnimationDuration : Type where
  | Imported
  | Custom
deriving DecidableEq

/-- Modelled from the spec: `ModelLightmapUVsSource` is declared outside
the given sources; the spec only names its `Disable` member (the default),
so only that member is modelled. -/
inductive ModelLightmapUVsSource : Type where
  | Disable
deriving DecidableEq

/-- The external `Float3` vector, with exact rationals in place of 32-bit
floats (every default in `ModelTool::Options` is exactly representable). -/
structure Float3 where
  x : ℚ
  y : ℚ
  z : ℚ
deriving DecidableEq

/-- `Float3::Zero`. -/
def Float3.Zero : Float3 := ⟨0, 0, 0⟩

/-- The external `Float2` vector. -/
structure Float2 where
  x : ℚ
  y : ℚ
deriving DecidableEq

/-- `Float2::Zero`. -/
def Float2.Zero : Float2 := ⟨0, 0⟩

/-- The external `Quaternion` type. -/
structure Quaternion where
  x : ℚ
  y : ℚ
  z : ℚ
  w : ℚ
deriving DecidableEq

/-- `Quaternion::Identity`. -/
def Quaternion.Identity : Quaternion := ⟨0, 0, 0, 1⟩

/-- `ModelTool::Options` (ModelTool.h, lines 219-364) with the field
initializers of the source as Lean default values. The two runtime-only
members (`SplitContext`, the split decision callback) carry no imported
configuration and are omitted. -/
structure Options where
  «Type» : ModelType := ModelType.Model
  CalculateNormals : Bool := false
  SmoothingNormalsAngle : ℚ := 175.0
  FlipNormals : Bool := false
  CalculateTangents : Bool := false
  SmoothingTangentsAngle : ℚ := 45.0
  OptimizeMeshes : Bool := true
  MergeMeshes : Bool := true
  ImportLODs : Bool := true
  ImportVertexColors : Bool := true
  ImportBlendShapes : Bool := false
  LightmapUVsSource : ModelLightmapUVsSource := ModelLightmapUVsSource.Disable
  CollisionMeshesPrefix : String := ""
  Scale : ℚ := 1.0
  Rotation : Quaternion := Quaternion.Identity
  Translation : Float3 := Float3.Zero
  CenterGeometry : Bool := false
  Duration : AnimationDuration := AnimationDuration.Imported
  FramesRange : Float2 := Float2.Zero
  DefaultFrameRate : ℚ := 0.0
  SamplingRate : ℚ := 0.0
  SkipEmptyCurves : Bool := true
  OptimizeKeyframes : Bool := true
  ImportScaleTracks : Bool := false
  EnableRootMotion : Bool := false
  RootNodeName : String := ""
  GenerateLODs : Bool := false
  BaseLOD : Int := 0
  LODCount : Int := 4
  TriangleReduction : ℚ := 0.5
  ImportMaterials : Bool := true
  ImportTextures : Bool := true
  RestoreMaterialsOnReimport : Bool := true
  GenerateSDF : Bool := false
  SDFResolution : ℚ := 1.0
  SplitObjects : Bool := false
  ObjectIndex : Int := -1
deriving DecidableEq

/-- A default-constructed `ModelTool::Options`. -/
def defaultOptions : Options := {}

/-- Claim C3: a default-constructed `ModelTool::Options` has exactly the
documented default field values. -/
theorem defaultOptions_documented_values :
    defaultOptions.«Type» = ModelType.Model ∧
    defaultOptions.CalculateNormals = false ∧
    defaultOptions.SmoothingNormalsAngle = 175 ∧
    defaultOptions.FlipNormals = false ∧
    defaultOptions.CalculateTangents = false ∧
    defaultOptions.SmoothingTangentsAngle = 45 ∧
    defaultOptions.OptimizeMeshes = true ∧
    defaultOptions.MergeMeshes = true ∧
    defaultOptions.ImportLODs = true ∧
    defaultOptions.ImportVertexColors = true ∧
    defaultOptions.ImportBlendShapes = false ∧
    defaultOptions.LightmapUVsSource = ModelLightmapUVsSource.Disable ∧
    Options.CollisionMeshesPrefix defaultOptions = "" ∧
    defaultOptions.Scale = 1 ∧
    defaultOptions.Rotation = Quaternion.Identity ∧
    defaultOptions.Translation = Float3.Zero ∧
    defaultOptions.CenterGeometry = false ∧
    defaultOptions.Duration = AnimationDuration.Imported ∧
    defaultOptions.FramesRange = ⟨0, 0⟩ ∧
    defaultOptions.DefaultFrameRate = 0 ∧
    defaultOptions.SamplingRate = 0 ∧
    defaultOptions.SkipEmptyCurves = true ∧
    defaultOptions.OptimizeKeyframes = true ∧
    defaultOptions.ImportScaleTracks = false ∧
    defaultOptions.EnableRootMotion = false ∧
    defaultOptions.RootNodeName = "" ∧
    defaultOptions.GenerateLODs = false ∧
    defaultOptions.BaseLOD = 0 ∧
    defaultOptions.LODCount = 4 ∧
    defaultOptions.TriangleReduction = 1 / 2 ∧
    defaultOptions.ImportMaterials = true ∧
    defaultOptions.ImportTextures = true ∧
    defaultOptions.RestoreMaterialsOnReimport = true ∧
    defaultOptions.GenerateSDF = false ∧
    defaultOptions.SDFResolution = 1 ∧
    defaultOptions.SplitObjects = false ∧
    defaultOptions.ObjectIndex = -1 := by
  norm_num [defaultOptions, Quaternion.Identity, Float3.Zero, Float2.Zero]

/-- A mesh record (`MeshData*`): the buffers are irrelevant here, the
record identity is what ownership and deletion are about. -/
structure MeshData where
  id : Nat
deriving DecidableEq

/-- `ImportedModelData::LOD` (ModelTool.h, lines 63-68): a list of
exclusively owned mesh records. -/
structure ImportedLOD where
  Meshes : List MeshData
deriving DecidableEq

/-- `ImportedModelData` (ModelTool.h, lines 60-143), restricted to the
members the destructor touches: the requested type mask and the LODs.
The remaining members (textures, materials, skeleton, nodes, animation)
own no mesh records. -/
structure ImportedModelData where
  Types : Int
  LODs : List ImportedLOD
deriving DecidableEq

/-- `Array::ClearDelete` on a mesh list: deletes every element and clears
the list. Returns the cleared list together with the records deleted (in
order, one deletion event per occurrence). -/
def ClearDelete (meshes : List MeshData) : List MeshData × List MeshData :=
  ([], meshes)

/-- The loop body of `ImportedModelData::~ImportedModelData` (ModelTool.h,
lines 137-142): `for (int32 i = 0; i < LODs.Count(); i++)
LODs[i].Meshes.ClearDelete();`. Returns the LOD list after the loop and
the deletion events it performed. -/
def destructLODs : List ImportedLOD → List ImportedLOD × List MeshData
  | [] => ([], [])
  | lod :: rest =>
    let cleared := ClearDelete lod.Meshes
    let tail := destructLODs rest
    ({ lod with Meshes := cleared.1 } :: tail.1, cleared.2 ++ tail.2)

/-- `ImportedModelData::~ImportedModelData`: the object state after the
destructor body, paired with every deletion it performed. -/
def ImportedModelData.destruct (d : ImportedModelData) :
    ImportedModelData × List MeshData :=
  let r := destructLODs d.LODs
  ({ d with LODs := r.1 }, r.2)

lemma destructLODs_spec (lods : List ImportedLOD) :
    (destructLODs lods).1.all (fun lod => lod.Meshes.isEmpty) = true ∧
    (destructLODs lods).2 = (lods.map ImportedLOD.Meshes).flatten ∧
    (destructLODs lods).1.length = lods.length := by
  induction lods with
  | nil => exact ⟨rfl, rfl, rfl⟩
  | cons lod rest ih =>
    simpa [destructLODs, ClearDelete] using ih

/-- Claim C4: destroying an `ImportedModelData` deletes each mesh record
of each LOD exactly once (the deletion events are exactly the
concatenation of all LOD mesh lists, multiplicity preserved) and leaves
every LOD mesh list empty. -/
theorem ImportedModelData_destruct_releases_all (d : ImportedModelData) :
    (d.destruct.1.LODs.all (fun lod => lod.Meshes.isEmpty) = true) ∧
    d.destruct.2 = (d.LODs.map ImportedLOD.Meshes).flatten ∧
    d.destruct.1.LODs.length = d.LODs.length := by
  simpa [ImportedModelData.destruct] using destructLODs_spec d.LODs

/-- Modelled from the spec: the body of `ModelTool::GenerateModelSDF` is
outside the given sources; the spec defines the inside test as the
fraction of back-facing nearest-triangle hits exceeding
`backfacesThreshold`. -/
def GenerateModelSDF_voxelIsInside (backfaceHitFraction backfacesThreshold : ℚ) : Bool :=
  decide (backfacesThreshold < backfaceHitFraction)

/-- The default argument of `ModelTool::GenerateModelSDF` (ModelTool.h,
line 187): `float backfacesThreshold = 0.6f`. -/
def GenerateModelSDF_backfacesThreshold_default : ℚ := 0.6

/-- Calling the SDF generator without an explicit `backfacesThreshold`
argument: C++ substitutes the declared default. -/
def GenerateModelSDF_voxelIsInsideDefault (backfaceHitFraction : ℚ) : Bool :=
  GenerateModelSDF_voxelIsInside backfaceHitFraction
    GenerateModelSDF_backfacesThreshold_default

/-- Claim C5: with no explicit `backfacesThreshold` argument, the
inside/outside classification uses threshold 0.6: a voxel is classified
inside exactly when its backface-hit fraction exceeds 3/5. -/
theorem GenerateModelSDF_default_backfacesThreshold (f : ℚ) :
    GenerateModelSDF_backfacesThreshold_default = 3 / 5 ∧
    GenerateModelSDF_voxelIsInsideDefault f = decide (3 / 5 < f) := by
  constructor
  · norm_num [GenerateModelSDF_backfacesThreshold_default]
  · norm_num [GenerateModelSDF_voxelIsInsideDefault, GenerateModelSDF_voxelIsInside,
      GenerateModelSDF_backfacesThreshold_default]

/-- The result codes of `ImportShader::Import`, from `CreateAssetResult`
(only the members the function returns). -/
inductive CreateAssetResult : Type where
  | Ok
  | InvalidPath
  | CannotAllocateChunk
  | Error
deriving DecidableEq

/-- Modelled from the spec: `Encryption::EncryptBytes` is outside the
given sources; in-place encryption of a byte buffer is modelled as an
arbitrary per-position byte cipher, applied to each of the first `n`
bytes. By construction it preserves the buffer length, as an in-place
operation must. -/
def EncryptBytes (cipher : Nat → Nat → Nat) (data : List Nat) : List Nat :=
  List.zipWith cipher (List.range data.length) data

/-- The externally observable outcome of one `ImportShader::Import` call:
the returned result code, whether `context.SkipMetadata` was set, whether
`AllocateChunk(15)` succeeded, the bytes stored in the source-code chunk
(`none` while nothing was stored), whether the `ShaderStorage::Header20`
custom data was written, and the asset identities removed from the shader
cache. -/
structure ImportShaderOutcome where
  result : CreateAssetResult
  skipMetadata : Bool
  chunkAllocated : Bool
  chunkData : Option (List Nat)
  customDataWritten : Bool
  cacheRemoved : List Nat
deriving DecidableEq

/-- Embedding of `ImportShader::Import` (ImportShader.cpp, lines 14-55).
Inputs: the byte cipher of `Encryption::EncryptBytes`, whether
`COMPILE_WITH_SHADER_CACHE_MANAGER` is defined, the outcome of
`File::ReadAllText` (`none` when the read fails, in C++ a `true` return),
whether `context.AllocateChunk(15)` fails, and `context.Data.Header.ID`.
The stored chunk is `Data.Allocate(size + 1)`, a copy of the `size` text
bytes encrypted in place, then the final byte set to 0. -/
def ImportShader_Import (cipher : Nat → Nat → Nat) (cacheManagerEnabled : Bool)
    (readAllText : Option (List Nat)) (allocateChunkFails : Bool)
    (headerID : Nat) : ImportShaderOutcome :=
  match readAllText with
  | none =>
    { result := CreateAssetResult.InvalidPath, skipMetadata := true,
      chunkAllocated := false, chunkData := none,
      customDataWritten := false, cacheRemoved := [] }
  | some sourceCodeText =>
    if allocateChunkFails then
      { result := CreateAssetResult.CannotAllocateChunk, skipMetadata := true,
        chunkAllocated := false, chunkData := none,
        customDataWritten := false, cacheRemoved := [] }
    else if sourceCodeText.length < 10 then
      { result := CreateAssetResult.Error, skipMetadata := true,
        chunkAllocated := true, chunkData := none,
        customDataWritten := false, cacheRemoved := [] }
    else
      { result := CreateAssetResult.Ok, skipMetadata := true,
        chunkAllocated := true,
        chunkData := some (EncryptBytes cipher sourceCodeText ++ [0]),
        customDataWritten := true,
        cacheRemoved := if cacheManagerEnabled then [headerID] else [] }

lemma EncryptBytes_length (cipher : Nat → Nat → Nat) (data : List Nat) :
    (EncryptBytes cipher data).length = data.length := by
  simp [EncryptBytes]

/-- Claim C6: on every call of `ImportShader::Import` that returns `Ok`,
the stored source-code chunk holds `n + 1` bytes for a read text of
length `n`: the first `n` bytes are the in-place encryption of the text
and the final byte is the unencrypted terminator 0. -/
theorem ImportShader_Import_read_encrypt_store (cipher : Nat → Nat → Nat)
    (cacheManagerEnabled : Bool) (readAllText : Option (List Nat))
    (allocateChunkFails : Bool) (headerID : Nat) (text : List Nat)
    (hread : readAllText = some text)
    (hok : (ImportShader_Import cipher cacheManagerEnabled readAllText
      allocateChunkFails headerID).result = CreateAssetResult.Ok) :
    (ImportShader_Import cipher cacheManagerEnabled readAllText
        allocateChunkFails headerID).chunkData
      = some (EncryptBytes cipher text ++ [0]) ∧
    (EncryptBytes cipher text ++ [0]).length = text.length + 1 ∧
    (EncryptBytes cipher text ++ [0]).take text.length = EncryptBytes cipher text ∧
    (EncryptBytes cipher text ++ [0]).getLast? = some 0 := by
  subst hread
  by_cases halloc : allocateChunkFails
  · simp [ImportShader_Import, halloc] at hok
  · by_cases hlen : text.length < 10
    · simp [ImportShader_Import, halloc, hlen] at hok
    · refine ⟨by simp [ImportShader_Import, halloc, hlen], ?_, ?_, ?_⟩
      · simp [EncryptBytes_length]
      · rw [show text.length = (EncryptBytes cipher text).length from
          (EncryptBytes_length cipher text).symm]
        exact List.take_left _ _
      · simp

/-- Concrete cipher for the shader-import witnesses: add the position to
the byte. -/
def shaderCipher : Nat → Nat → Nat := fun i b => i + b

/-- Concrete ten-byte shader source text for the witnesses. -/
def shaderText : List Nat := List.replicate 10 10

/-- Witness for claim C6 at a concrete ten-byte input. -/
theorem ImportShader_Import_read_encrypt_store_witness :
    (ImportShader_Import shaderCipher true (some shaderText) false 3).chunkData
      = some (EncryptBytes shaderCipher shaderText ++ [0]) ∧
    (EncryptBytes shaderCipher shaderText ++ [0]).length = shaderText.length + 1 ∧
    (EncryptBytes shaderCipher shaderText ++ [0]).take shaderText.length
      = EncryptBytes shaderCipher shaderText ∧
    (EncryptBytes shaderCipher shaderText ++ [0]).getLast? = some 0 :=
  ImportShader_Import_read_encrypt_store shaderCipher true (some shaderText)
    false 3 shaderText rfl (by decide)

/-- Claim C7: `ImportShader::Import` reports failures only through the
returned result code (the embedding is a total function into result
codes): an unreadable input file yields `InvalidPath` and a failed chunk
allocation yields `CannotAllocateChunk`, in both cases returning
immediately with nothing stored, no custom-data header written and no
cache entry removed. -/
theorem ImportShader_Import_failure_paths (cipher : Nat → Nat → Nat)
    (cacheManagerEnabled : Bool) (allocateChunkFails : Bool)
    (headerID : Nat) (text : List Nat) :
    ImportShader_Import cipher cacheManagerEnabled none allocateChunkFails headerID
      = { result := CreateAssetResult.InvalidPath, skipMetadata := true,
          chunkAllocated := false, chunkData := none,
          customDataWritten := false, cacheRemoved := [] } ∧
    ImportShader_Import cipher cacheManagerEnabled (some text) true headerID
      = { result := CreateAssetResult.CannotAllocateChunk, skipMetadata := true,
          chunkAllocated := false, chunkData := none,
          customDataWritten := false, cacheRemoved := [] } := by
  exact ⟨rfl, rfl⟩

/-- Claim C8: with the shader cache manager compiled in, every import
that returns `Ok` removes exactly the cache entry of the imported asset
identity `context.Data.Header.ID` and touches no other identity. -/
theorem ImportShader_Import_cache_invalidation (cipher : Nat → Nat → Nat)
    (readAllText : Option (List Nat)) (allocateChunkFails : Bool)
    (headerID : Nat)
    (hok : (ImportShader_Import cipher true readAllText
      allocateChunkFails headerID).result = CreateAssetResult.Ok) :
    (ImportShader_Import cipher true readAllText
        allocateChunkFails headerID).cacheRemoved = [headerID] ∧
    ∀ k : Nat, k ≠ headerID →
      k ∉ (ImportShader_Import cipher true readAllText
        allocateChunkFails headerID).cacheRemoved := by
  match readAllText with
  | none => simp [ImportShader_Import] at hok
  | some text =>
    by_cases halloc : allocateChunkFails
    · simp [ImportShader_Import, halloc] at hok
    · by_cases hlen : text.length < 10
      · simp [ImportShader_Import, halloc, hlen] at hok
      · constructor
        · simp [ImportShader_Import, halloc, hlen]
        · intro k hk
          simp [ImportShader_Import, halloc, hlen, hk]

/-- Witness for claim C8 at a concrete ten-byte input with asset id 7. -/
theorem ImportShader_Import_cache_invalidation_witness :
    (ImportShader_Import shaderCipher true (some shaderText) false 7).cacheRemoved
      = [7] ∧
    5 ∉ (ImportShader_Import shaderCipher true (some shaderText) false 7).cacheRemoved := by
  have h := ImportShader_Import_cache_invalidation shaderCipher (some shaderText)
    false 7 (by decide)
  exact ⟨h.1, h.2 5 (by decide)⟩

/-- Claim C9: with a readable file and a successful chunk allocation, a
source text strictly shorter than 10 bytes is rejected with the generic
`Error` result (even when non-empty) after the chunk was already
allocated and with nothing stored, while a text of length 10 or more
passes the check and the import returns `Ok`. -/
theorem ImportShader_Import_minimum_length (cipher : Nat → Nat → Nat)
    (cacheManagerEnabled : Bool) (headerID : Nat) (text : List Nat) :
    (text.length < 10 →
      (ImportShader_Import cipher cacheManagerEnabled (some text) false headerID).result
        = CreateAssetResult.Error ∧
      (ImportShader_Import cipher cacheManagerEnabled (some text) false headerID).chunkAllocated
        = true ∧
      (ImportShader_Import cipher cacheManagerEnabled (some text) false headerID).chunkData
        = none) ∧
    (10 ≤ text.length →
      (ImportShader_Import cipher cacheManagerEnabled (some text) false headerID).result
        = CreateAssetResult.Ok) := by
  constructor
  · intro hlen
    refine ⟨?_, ?_, ?_⟩ <;> simp [ImportShader_Import, hlen]
  · intro hlen
    have hlt : ¬ text.length < 10 := by omega
    simp [ImportShader_Import, hlt]

/-- Witness for claim C9: a non-empty three-byte source is rejected with
`Error`, a ten-byte source passes. -/
theorem ImportShader_Import_minimum_length_witness :
    (ImportShader_Import shaderCipher true (some [65, 66, 67]) false 3).result
      = CreateAssetResult.Error ∧
    (ImportShader_Import shaderCipher true (some shaderText) false 3).result
      = CreateAssetResult.Ok :=
  ⟨((ImportShader_Import_minimum_length shaderCipher true 3 [65, 66, 67]).1
      (by decide)).1,
    (ImportShader_Import_minimum_length shaderCipher true 3 shaderText).2
      (by decide)⟩

end Flax
